import Mathlib

/-!
Verification of the serena multi-session gateway: a shallow embedding of
`session.py`, `central_server.py`, `mcp_proxy.py` and
`util/instance_registry.py`, with theorems settling the specified
behaviour of session state derivation, tool dispatch, the instance
registry operations and the stdio bridge's error mapping.

Timestamps (Python `time.time()` floats) are modelled as rationals.
Python dicts are modelled as association lists with unique keys
(insertion order preserved, as in CPython).
-/

namespace Serena

/-- Lookup in an association list modelling a Python dict (`d.get(k)`). -/
def dictGet {κ α : Type} [DecidableEq κ] : List (κ × α) → κ → Option α
  | [], _ => none
  | (k, v) :: rest, key => if k = key then some v else dictGet rest key

/-- Lookup with default (`d.get(k, dflt)`). -/
def dictGetD {κ α : Type} [DecidableEq κ] (l : List (κ × α)) (key : κ) (dflt : α) : α :=
  (dictGet l key).getD dflt

/-- Assignment `d[k] = v` on a Python dict: replaces the value in place if the
key exists (keeping its position), otherwise appends at the end. -/
def dictInsert {κ α : Type} [DecidableEq κ] : List (κ × α) → κ → α → List (κ × α)
  | [], key, v => [(key, v)]
  | (k, w) :: rest, key, v =>
      if k = key then (k, v) :: rest else (k, w) :: dictInsert rest key v

/-- Deletion `del d[k]` on a Python dict. -/
def dictRemove {κ α : Type} [DecidableEq κ] : List (κ × α) → κ → List (κ × α)
  | [], _ => []
  | (k, v) :: rest, key => if k = key then rest else (k, v) :: dictRemove rest key

/-- The Python slice `l[-n:]` for a non-negative `n`: for `n = 0` this is
`l[0:]`, the whole list; for `n > 0` it is the last `min n (length l)`
elements. -/
def pyLastSlice {α : Type} (l : List α) (n : Nat) : List α :=
  if n = 0 then l else l.drop (l.length - n)

/-! ## Session model (`session.py`) -/

/-- `SessionState` enum from `session.py`. -/
inductive SessionState
  | connected
  | active
  | idle
  | disconnected
deriving DecidableEq, Repr

/-- A reference to an active project, as stored in `Session._active_project`
(the `Project` class itself is an external collaborator; only its name and
root are observed by the session code). -/
structure ProjectRef where
  project_name : String
  project_root : String
deriving DecidableEq, Repr

/-- The `Session` object from `session.py`. Fields with a leading underscore
mirror the private attributes of the Python class; the per-session reentrant
lock is not represented (all modelled operations are single atomic steps). -/
structure Session where
  session_id : String
  client_name : Option String
  created_at : ℚ
  last_activity : ℚ
  stateStored : SessionState
  activeProject : Option ProjectRef
  activeModes : List String
  toolCallCount : Nat
  toolStats : List (String × Nat)
deriving DecidableEq, Repr

namespace Session

/-- `Session.IDLE_TIMEOUT_SECONDS = 300`. -/
def IDLE_TIMEOUT_SECONDS : ℚ := 300

/-- The body of the `state` property getter: it reads the stored state and
`last_activity` and returns the (possibly derived) state together with the
session object, which it does not modify (the getter performs no writes). -/
def stateProp (s : Session) (now : ℚ) : SessionState × Session :=
  if s.stateStored = SessionState.connected ∨ s.stateStored = SessionState.active then
    if now - s.last_activity > IDLE_TIMEOUT_SECONDS then (SessionState.idle, s)
    else (s.stateStored, s)
  else (s.stateStored, s)

/-- The value returned by the `state` property. -/
def state (s : Session) (now : ℚ) : SessionState :=
  (stateProp s now).1

/-- `Session.touch()`: set `last_activity` to the current time. -/
def touch (s : Session) (now : ℚ) : Session :=
  { s with last_activity := now }

/-- `Session.set_active_project(project)`. -/
def set_active_project (s : Session) (project : Option ProjectRef) (now : ℚ) : Session :=
  let s := { s with activeProject := project,
                    stateStored := if project.isSome then SessionState.active
                                   else SessionState.connected }
  touch s now

/-- `Session.set_active_modes(modes)` (modes are identified by name; the
`SerenaAgentMode` class is an external collaborator). -/
def set_active_modes (s : Session) (modes : List String) (now : ℚ) : Session :=
  touch { s with activeModes := modes } now

/-- `Session.increment_tool_calls(tool_name)`. `if tool_name:` is Python
truthiness: `None` and the empty string are falsy. -/
def increment_tool_calls (s : Session) (tool_name : Option String) (now : ℚ) : Session :=
  let s := { s with toolCallCount := s.toolCallCount + 1 }
  let s := match tool_name with
    | some name =>
        if name = "" then s
        else { s with toolStats := dictInsert s.toolStats name (dictGetD s.toolStats name 0 + 1) }
    | none => s
  touch s now

/-- `Session.disconnect()`. -/
def disconnect (s : Session) (now : ℚ) : Session :=
  touch { s with stateStored := SessionState.disconnected } now

end Session

/-! ## JSON values

A small JSON value type, used for the free-form `details` maps of server
lifecycle events, for the documents parsed by the registry, and for the
payloads moved by the stdio bridge. -/

inductive Json
  | null
  | bool (b : Bool)
  | num (q : ℚ)
  | str (s : String)
  | arr (items : List Json)
  | obj (fields : List (String × Json))

/-! ## Centralized server model (`central_server.py`) -/

/-- A server-local `LifecycleEvent` from `central_server.py`. -/
structure ServerEvent where
  timestamp : ℚ
  event_type : String
  session_id : Option String
  details : List (String × Json)

/-- A session's dedicated agent, abstracted to its observable behaviour in
`execute_tool`: given a tool name, `Except.ok r` is the string returned by
`get_tool_by_name` + `apply_ex` and `Except.error e` is an exception raised
inside the `try` block (e.g. an unknown tool name), whose `str()` is `e`.
The `SerenaAgent` class is an external collaborator. -/
def AgentFun : Type := String → Except String String

/-- The state of a `CentralizedSerenaServer` observed by `execute_tool` and
`get_lifecycle_events`: the session manager's id→session map, the
id→agent map, the template agent, the tool-call total and the bounded
lifecycle-event ring. -/
structure ServerState where
  sessions : List (String × Session)
  session_agents : List (String × AgentFun)
  template_agent : AgentFun
  total_tool_calls : Nat
  lifecycle_events : List ServerEvent

namespace CentralizedSerenaServer

/-- `CentralizedSerenaServer.MAX_LIFECYCLE_EVENTS = 500`. -/
def MAX_LIFECYCLE_EVENTS : Nat := 500

/-- `_add_lifecycle_event`: append and trim the ring to the newest 500. -/
def add_lifecycle_event (srv : ServerState) (now : ℚ) (event_type : String)
    (session_id : Option String) (details : List (String × Json)) : ServerState :=
  let events := srv.lifecycle_events ++
    [{ timestamp := now, event_type := event_type, session_id := session_id,
       details := details }]
  { srv with lifecycle_events :=
      if events.length > MAX_LIFECYCLE_EVENTS then pyLastSlice events MAX_LIFECYCLE_EVENTS
      else events }

/-- `CentralizedSerenaServer.get_lifecycle_events(limit)`:
`list(self._lifecycle_events[-limit:])`. -/
def get_lifecycle_events (srv : ServerState) (limit : Nat) : List ServerEvent :=
  pyLastSlice srv.lifecycle_events limit

/-- `CentralizedSerenaServer.execute_tool(session_id, tool_name, **kwargs)`.
Returns the new server state, the result string, and a flag recording
whether control reached the tool-dispatch block (the flag is
instrumentation of the embedding: on the two early-return error paths no
tool is looked up or invoked). -/
def execute_tool (srv : ServerState) (now : ℚ) (session_id tool_name : String) :
    ServerState × String × Bool :=
  match dictGet srv.sessions session_id with
  | none => (srv, ("Error: Unknown session " ++ session_id, false))
  | some session =>
    if Session.state session now = SessionState.disconnected then
      (srv, ("Error: Session " ++ session_id ++ " is disconnected", false))
    else
      let agent := match dictGet srv.session_agents session_id with
        | some a => a
        | none => srv.template_agent
      let session := Session.increment_tool_calls session (some tool_name) now
      let srv := { srv with sessions := dictInsert srv.sessions session_id session,
                            total_tool_calls := srv.total_tool_calls + 1 }
      match agent tool_name with
      | Except.ok result =>
          (add_lifecycle_event srv now "tool_executed" (some session_id)
             [("tool_name", Json.str tool_name), ("success", Json.bool true)],
           (result, true))
      | Except.error e =>
          (add_lifecycle_event srv now "tool_executed" (some session_id)
             [("tool_name", Json.str tool_name), ("success", Json.bool false),
              ("error", Json.str e)],
           ("Error: " ++ e, true))

end CentralizedSerenaServer

/-! ## Instance registry model (`util/instance_registry.py`)

Every public operation acquires the file lock, loads the document, mutates
it in memory and saves atomically; the model works directly on the loaded
`RegistryData` document (an operation is a function from the document and
the current time to the new document plus its return value). -/

/-- `ZOMBIE_TIMEOUT_SECONDS = 5 * 60`. -/
def ZOMBIE_TIMEOUT_SECONDS : ℚ := 5 * 60

/-- `InstanceState` enum. -/
inductive InstanceState
  | live_no_project
  | live_with_project
  | zombie
deriving DecidableEq, Repr

/-- `LifecycleEventType` enum. -/
inductive LifecycleEventType
  | instance_started
  | instance_stopped
  | project_activated
  | project_deactivated
  | zombie_detected
  | zombie_pruned
  | zombie_force_killed
  | heartbeat_restored
deriving DecidableEq, Repr

/-- A registry `LifecycleEvent`. -/
structure LifecycleEvent where
  timestamp : ℚ
  event_type : LifecycleEventType
  pid : Int
  port : Int
  project_name : Option String
  message : Option String
deriving DecidableEq, Repr

/-- `InstanceInfo`: a registered gateway process. -/
structure InstanceInfo where
  pid : Int
  port : Int
  started_at : ℚ
  last_heartbeat : ℚ
  context : Option String
  modes : List String
  project_name : Option String
  project_root : Option String
  state : InstanceState
  zombie_detected_at : Option ℚ
deriving DecidableEq, Repr

/-- `RegistryData`: the whole registry document. -/
structure RegistryData where
  instances : List (Int × InstanceInfo)
  lifecycle_events : List LifecycleEvent
  global_dashboard_pid : Option Int
  global_dashboard_port : Option Int
deriving DecidableEq, Repr

/-- `RegistryData()` with all defaults: the empty document. -/
def RegistryData.empty : RegistryData :=
  { instances := [], lifecycle_events := [],
    global_dashboard_pid := none, global_dashboard_port := none }

/-- Python truthiness of the `Optional[float]` field `zombie_detected_at`:
`None`, `0` and `0.0` are falsy. -/
def optTruthy (o : Option ℚ) : Bool :=
  match o with
  | none => false
  | some t => t ≠ 0

/-- Python `str()` of an `Optional[str]` inside an f-string: `None` prints
as `"None"`, a string prints as itself. -/
def pyStrOptStr : Option String → String
  | none => "None"
  | some s => s

/-- Python `str()` of an `Optional[list[str]]` inside an f-string: `None`
prints as `"None"`, a list prints with its elements in `repr` form
(quote escaping inside elements is abstracted away). -/
def pyStrOptList : Option (List String) → String
  | none => "None"
  | some l => "[" ++ String.intercalate ", " (l.map (fun s => "'" ++ s ++ "'")) ++ "]"

namespace InstanceRegistry

/-- `InstanceRegistry.MAX_LIFECYCLE_EVENTS = 1000`. -/
def MAX_LIFECYCLE_EVENTS : Nat := 1000

/-- The event-ring truncation performed by `_save`: keep the newest 1000. -/
def trimEvents (events : List LifecycleEvent) : List LifecycleEvent :=
  if events.length > MAX_LIFECYCLE_EVENTS then pyLastSlice events MAX_LIFECYCLE_EVENTS
  else events

/-- `_save(data)`: truncate the event ring and write atomically (the write
itself is I/O; its effect on the document is the truncation). -/
def saveData (d : RegistryData) : RegistryData :=
  { d with lifecycle_events := trimEvents d.lifecycle_events }

/-- `_add_event(data, event_type, pid, port, project_name, message)`. -/
def add_event (d : RegistryData) (now : ℚ) (event_type : LifecycleEventType)
    (pid : Int) (port : Int) (project_name : Option String := none)
    (message : Option String := none) : RegistryData :=
  { d with lifecycle_events := d.lifecycle_events ++
      [{ timestamp := now, event_type := event_type, pid := pid, port := port,
         project_name := project_name, message := message }] }

/-- `register(pid, port, context, modes)` applied to the loaded document at
time `now`. Returns the saved document and the returned `InstanceInfo`. -/
def register (d : RegistryData) (now : ℚ) (pid : Int) (port : Int)
    (context : Option String := none) (modes : Option (List String) := none) :
    RegistryData × InstanceInfo :=
  match dictGet d.instances pid with
  | none =>
      let info : InstanceInfo :=
        { pid := pid, port := port, started_at := now, last_heartbeat := now,
          context := context, modes := modes.getD [], project_name := none,
          project_root := none, state := InstanceState.live_no_project,
          zombie_detected_at := none }
      let d := { d with instances := dictInsert d.instances pid info }
      let d := add_event d now LifecycleEventType.instance_started pid port none
        (some ("Context: " ++ pyStrOptStr context ++ ", Modes: " ++ pyStrOptList modes))
      (saveData d, info)
  | some existing =>
      let existing := { existing with port := port, last_heartbeat := now,
                                      context := context, modes := modes.getD [] }
      let (existing, d) :=
        if existing.state = InstanceState.zombie then
          let existing := { existing with state := InstanceState.live_no_project,
                                          zombie_detected_at := none }
          (existing, add_event d now LifecycleEventType.heartbeat_restored pid port)
        else (existing, d)
      let d := { d with instances := dictInsert d.instances pid existing }
      (saveData d, existing)

/-- The collection condition of `prune_zombies`: the instance is a
`ZOMBIE` with a truthy `zombie_detected_at` strictly older than the
timeout (`if inst.zombie_detected_at and (now - inst.zombie_detected_at) >
timeout_seconds`). -/
def pruneExpired (now timeout_seconds : ℚ) (kv : Int × InstanceInfo) : Bool :=
  kv.2.state = InstanceState.zombie ∧ optTruthy kv.2.zombie_detected_at ∧
    now - kv.2.zombie_detected_at.getD 0 > timeout_seconds

/-- The loop body of `prune_zombies`: look the pid up, emit a
`ZOMBIE_PRUNED` event, delete the entry and append the pid to the pruned
list. -/
def pruneStep (now timeout_seconds : ℚ) (acc : RegistryData × List Int) (pid : Int) :
    RegistryData × List Int :=
  match dictGet acc.1.instances pid with
  | none => acc
  | some inst =>
      let d := add_event acc.1 now LifecycleEventType.zombie_pruned pid inst.port
        inst.project_name
        (some ("Auto-pruned after " ++ toString timeout_seconds ++ "s"))
      ({ d with instances := dictRemove d.instances pid }, acc.2 ++ [pid])

/-- `prune_zombies(timeout_seconds)` applied to the loaded document at time
`now`. Returns the resulting document and the pruned pid list. The source
first collects `to_remove`, then runs the loop body per pid; it saves only
when something was pruned. -/
def prune_zombies (d : RegistryData) (now : ℚ)
    (timeout_seconds : ℚ := ZOMBIE_TIMEOUT_SECONDS) : RegistryData × List Int :=
  let to_remove : List Int :=
    (d.instances.filter (pruneExpired now timeout_seconds)).map (fun kv => kv.1)
  let res := to_remove.foldl (pruneStep now timeout_seconds) (d, [])
  if res.2 = [] then res else (saveData res.1, res.2)

/-- `get_lifecycle_events(limit)`: `data.lifecycle_events[-limit:]`. -/
def get_lifecycle_events (d : RegistryData) (limit : Nat) : List LifecycleEvent :=
  pyLastSlice d.lifecycle_events limit

/-- `set_global_dashboard(pid, port)`. -/
def set_global_dashboard (d : RegistryData) (pid : Int) (port : Int) : RegistryData :=
  saveData { d with global_dashboard_pid := some pid, global_dashboard_port := some port }

/-- `get_global_dashboard_port()`. -/
def get_global_dashboard_port (d : RegistryData) : Option Int :=
  d.global_dashboard_port

/-- `clear_global_dashboard(pid)`: clears (and saves) only when the stored
pid matches the given one. -/
def clear_global_dashboard (d : RegistryData) (pid : Int) : RegistryData :=
  if d.global_dashboard_pid = some pid then
    saveData { d with global_dashboard_pid := none, global_dashboard_port := none }
  else d

end InstanceRegistry

/-! ## MCP stdio bridge model (`mcp_proxy.py`) -/

/-- `MCPProxyError`, indexed by the four raise sites of `_make_request`. -/
inductive MCPProxyError
  | connectionError (server_url : String) (detail : String)
  | timeoutError (seconds : ℚ)
  | httpError (detail : String)
  | invalidJsonResponse

namespace MCPProxyError

/-- `str(e)` for each raise site of `_make_request` (numeric formatting is
abstracted as Lean's `toString`). -/
def message : MCPProxyError → String
  | connectionError server_url detail =>
      "Cannot connect to server at " ++ server_url ++ ": " ++ detail
  | timeoutError seconds => "Request timed out after " ++ toString seconds ++ "s"
  | httpError detail => "HTTP error: " ++ detail
  | invalidJsonResponse => "Invalid JSON response from server"

end MCPProxyError

/-- A JSON-RPC response emitted by the bridge: either a successful result
carrying one text content item and an `isError` field (both JSON values,
copied verbatim from the server payload), or a JSON-RPC `error` object. -/
inductive JsonRpcResponse
  | result (request_id : Json) (content_text : Json) (isErrorField : Json)
  | rpcError (request_id : Json) (code : Int) (msg : String)

/-- Whether a bridge response is a JSON-RPC `error` object. -/
def JsonRpcResponse.isRpcError : JsonRpcResponse → Bool
  | JsonRpcResponse.result _ _ _ => false
  | JsonRpcResponse.rpcError _ _ _ => true

namespace SerenaMCPProxy

/-- `_make_error_response(request_id, code, message)`. -/
def make_error_response (request_id : Json) (code : Int) (msg : String) : JsonRpcResponse :=
  JsonRpcResponse.rpcError request_id code msg

/-- `_handle_call_tool(request)` for a request that carries an `id`
(`_process_request` only dispatches here when `"id" in request`).
`tool_name` is `request.get("params", {}).get("name")`; Python truthiness
makes both `None` and the empty string fail with `-32602`. The HTTP
round-trip `_make_request(...)` is abstracted by its outcome: either the
response dict or the raised `MCPProxyError`. -/
def handle_call_tool (request_id : Json) (tool_name : Option String)
    (outcome : Except MCPProxyError (List (String × Json))) : JsonRpcResponse :=
  match tool_name with
  | none => make_error_response request_id (-32602) "Missing tool name"
  | some name =>
      if name = "" then make_error_response request_id (-32602) "Missing tool name"
      else
        match outcome with
        | Except.ok response =>
            JsonRpcResponse.result request_id
              (dictGetD response "result" (Json.str ""))
              (dictGetD response "is_error" (Json.bool false))
        | Except.error e =>
            JsonRpcResponse.result request_id
              (Json.str ("Proxy error: " ++ e.message)) (Json.bool true)

end SerenaMCPProxy

/-! ## Raw registry-document parsing (`_load`, `from_dict`)

The self-healing claim is about what happens when the bytes on disk do not
parse as a registry document, so the parsing pipeline is modelled at the
level of raw JSON values, with the Python exceptions each step raises. -/

/-- The Python exceptions that can arise while loading the registry file. -/
inductive PyExc
  | jsonDecodeError
  | keyError
  | typeError
  | valueError
  | attributeError
deriving DecidableEq, Repr

/-- The exception classes caught by `_load`'s
`except (json.JSONDecodeError, KeyError, TypeError)` clause. -/
def isCaughtLoadExc : PyExc → Bool
  | PyExc.jsonDecodeError => true
  | PyExc.keyError => true
  | PyExc.typeError => true
  | _ => false

/-- The decimal digit denoted by a character, if any. -/
def charDigit (c : Char) : Option Nat :=
  if 48 ≤ c.toNat ∧ c.toNat ≤ 57 then some (c.toNat - 48) else none

/-- Accumulate a decimal digit string left to right. -/
def digitsToNatAux : List Char → Nat → Option Nat
  | [], acc => some acc
  | c :: rest, acc =>
      match charDigit c with
      | none => none
      | some d => digitsToNatAux rest (acc * 10 + d)

/-- A non-empty all-digit character list as a natural number. -/
def digitsToNat : List Char → Option Nat
  | [] => none
  | c :: rest => digitsToNatAux (c :: rest) 0

/-- Python `int(s)` on a string: an optional sign followed by decimal
digits (whitespace stripping and underscore separators are abstracted
away); anything else raises `ValueError`, modelled as `none`. -/
def pyInt (s : String) : Option Int :=
  match s.data with
  | [] => none
  | c :: rest =>
      if c = '-' then (digitsToNat rest).map (fun n => -(n : Int))
      else if c = '+' then (digitsToNat rest).map (fun n => (n : Int))
      else (digitsToNat (c :: rest)).map (fun n => (n : Int))

/-- The registry file as seen by `_load`: absent, present but not valid
JSON (`json.load` raises `JSONDecodeError`), or parsed into a JSON value. -/
inductive RegistryFile
  | absent
  | invalidJson
  | parsed (doc : Json)

/-- The raw registry document built by `RegistryData.from_dict`: dataclass
construction performs no type checking, so instance and event fields are
kept as raw keyword maps. -/
structure RawRegistry where
  instances : List (Int × List (String × Json))
  lifecycle_events : List (List (String × Json))
  global_dashboard_pid : Json
  global_dashboard_port : Json

/-- `RegistryData()` with all defaults, at the raw level. -/
def RawRegistry.empty : RawRegistry :=
  { instances := [], lifecycle_events := [],
    global_dashboard_pid := Json.null, global_dashboard_port := Json.null }

/-- Keyword names of the `InstanceInfo` dataclass. -/
def instanceFieldNames : List String :=
  ["pid", "port", "started_at", "last_heartbeat", "context", "modes",
   "project_name", "project_root", "state", "zombie_detected_at"]

/-- `InstanceInfo` fields without a default value. -/
def instanceRequiredFields : List String :=
  ["pid", "port", "started_at", "last_heartbeat"]

/-- Keyword names of the `LifecycleEvent` dataclass. -/
def eventFieldNames : List String :=
  ["timestamp", "event_type", "pid", "port", "project_name", "message"]

/-- `LifecycleEvent` fields without a default value. -/
def eventRequiredFields : List String :=
  ["timestamp", "event_type", "pid", "port"]

/-- `cls(**data)` for a dataclass: raises `TypeError` when a keyword is not
a field name or a field without a default is missing; field values are
stored without any type check. -/
def dataclassCall (fieldNames required : List String) (kwargs : List (String × Json)) :
    Except PyExc (List (String × Json)) :=
  if kwargs.all (fun kv => kv.1 ∈ fieldNames) ∧
     required.all (fun k => (dictGet kwargs k).isSome) then
    Except.ok kwargs
  else Except.error PyExc.typeError

/-- `InstanceInfo.from_dict(data)`: default `modes` to `[]` when absent,
then `cls(**data)`. A non-dict value fails with `TypeError` (either at the
`in` containment test or at the `**` unpacking). -/
def InstanceInfo.from_dict (v : Json) : Except PyExc (List (String × Json)) :=
  match v with
  | Json.obj fields =>
      let fields := if (dictGet fields "modes").isSome then fields
                    else fields ++ [("modes", Json.arr [])]
      dataclassCall instanceFieldNames instanceRequiredFields fields
  | _ => Except.error PyExc.typeError

/-- `LifecycleEvent.from_dict(data)`: `cls(**data)`. -/
def LifecycleEvent.from_dict (v : Json) : Except PyExc (List (String × Json)) :=
  match v with
  | Json.obj fields => dataclassCall eventFieldNames eventRequiredFields fields
  | _ => Except.error PyExc.typeError

/-- The dict comprehension
`{int(k): InstanceInfo.from_dict(v) for k, v in data.get("instances", {}).items()}`:
keys are converted first (`int(k)` raises `ValueError` on a non-integer
key), then values are parsed; the first exception wins. -/
def parseRawInstances : List (String × Json) →
    Except PyExc (List (Int × List (String × Json)))
  | [] => Except.ok []
  | (k, v) :: rest =>
      match pyInt k with
      | none => Except.error PyExc.valueError
      | some pid => do
          let info ← InstanceInfo.from_dict v
          let tail ← parseRawInstances rest
          Except.ok ((pid, info) :: tail)

/-- The list comprehension
`[LifecycleEvent.from_dict(e) for e in data.get("lifecycle_events", [])]`. -/
def parseRawEvents : List Json → Except PyExc (List (List (String × Json)))
  | [] => Except.ok []
  | e :: rest => do
      let ev ← LifecycleEvent.from_dict e
      let tail ← parseRawEvents rest
      Except.ok (ev :: tail)

/-- `RegistryData.from_dict(data)` on a raw JSON document. A non-dict
document fails with `AttributeError` at `data.get`; a non-dict
`"instances"` value fails with `AttributeError` at `.items()`; a
non-list `"lifecycle_events"` value fails with `TypeError` when iterated
into `LifecycleEvent.from_dict`. -/
def RegistryData.from_dict (data : Json) : Except PyExc RawRegistry :=
  match data with
  | Json.obj fields => do
      let instancesVal := dictGetD fields "instances" (Json.obj [])
      let instancePairs ← match instancesVal with
        | Json.obj kvs => Except.ok kvs
        | _ => Except.error PyExc.attributeError
      let instances ← parseRawInstances instancePairs
      let eventsVal := dictGetD fields "lifecycle_events" (Json.arr [])
      let eventItems ← match eventsVal with
        | Json.arr items => Except.ok items
        | _ => Except.error PyExc.typeError
      let events ← parseRawEvents eventItems
      Except.ok
        { instances := instances, lifecycle_events := events,
          global_dashboard_pid := dictGetD fields "global_dashboard_pid" Json.null,
          global_dashboard_port := dictGetD fields "global_dashboard_port" Json.null }
  | _ => Except.error PyExc.attributeError

/-- `InstanceRegistry._load()`: an absent file is an empty registry;
`json.load` / `RegistryData.from_dict` failures of the caught classes
(`JSONDecodeError`, `KeyError`, `TypeError`) fall back to an empty
registry; any other exception propagates to the caller. -/
def InstanceRegistry.loadData : RegistryFile → Except PyExc RawRegistry
  | RegistryFile.absent => Except.ok RawRegistry.empty
  | RegistryFile.invalidJson => Except.ok RawRegistry.empty
  | RegistryFile.parsed doc =>
      match RegistryData.from_dict doc with
      | Except.ok d => Except.ok d
      | Except.error e =>
          if isCaughtLoadExc e then Except.ok RawRegistry.empty
          else Except.error e

/-! ## Auxiliary definitions used in the statements -/

/-- Number of entries of an association list carrying the given key
("exactly one registry entry for p" is `countKey … p = 1`). -/
def countKey {α : Type} (l : List (Int × α)) (k : Int) : Nat :=
  (l.filter (fun kv => kv.1 = k)).length

/-- The `ZOMBIE_PRUNED` event that `prune_zombies` emits for a pid, built
from the instance as it stands in the given document. -/
def prunedEventFor (d : RegistryData) (now timeout_seconds : ℚ) (p : Int) :
    LifecycleEvent :=
  match dictGet d.instances p with
  | some inst =>
      { timestamp := now, event_type := LifecycleEventType.zombie_pruned, pid := p,
        port := inst.port, project_name := inst.project_name,
        message := some ("Auto-pruned after " ++ toString timeout_seconds ++ "s") }
  | none =>
      { timestamp := now, event_type := LifecycleEventType.zombie_pruned, pid := p,
        port := 0, project_name := none,
        message := some ("Auto-pruned after " ++ toString timeout_seconds ++ "s") }

/-! ## Concrete sample states (used by the witnesses) -/

/-- A sample agent answering every tool call with a fixed string. -/
def sampleAgent : AgentFun := fun _ => Except.ok "done"

/-- A freshly started server with no sessions. -/
def sampleServer : ServerState :=
  { sessions := [], session_agents := [], template_agent := sampleAgent,
    total_tool_calls := 0, lifecycle_events := [] }

/-- A server with three lifecycle events. -/
def sampleServerWithEvents : ServerState :=
  { sampleServer with lifecycle_events :=
      [{ timestamp := 1, event_type := "server_started", session_id := none, details := [] },
       { timestamp := 2, event_type := "session_created", session_id := some "s1", details := [] },
       { timestamp := 3, event_type := "session_disconnected", session_id := some "s1", details := [] }] }

/-- A sample session created at time 0. -/
def sampleSession : Session :=
  { session_id := "s1", client_name := some "claude-desktop", created_at := 0,
    last_activity := 0, stateStored := SessionState.connected,
    activeProject := none, activeModes := [], toolCallCount := 0, toolStats := [] }

/-- A sample registered instance. -/
def sampleInstance (st : InstanceState) (zda : Option ℚ) : InstanceInfo :=
  { pid := 7, port := 24282, started_at := 10, last_heartbeat := 20,
    context := some "agent", modes := ["interactive"], project_name := none,
    project_root := none, state := st, zombie_detected_at := zda }

/-- A registry holding a single `ZOMBIE` whose `zombie_detected_at` is the
(falsy) timestamp `0`. -/
def sampleRegistryZombieZero : RegistryData :=
  { instances := [(7, sampleInstance InstanceState.zombie (some 0))],
    lifecycle_events := [], global_dashboard_pid := none, global_dashboard_port := none }

/-- A registry holding a single `ZOMBIE` detected at time 50. -/
def sampleRegistryZombie : RegistryData :=
  { instances := [(7, sampleInstance InstanceState.zombie (some 50))],
    lifecycle_events := [], global_dashboard_pid := none, global_dashboard_port := none }

/-- A registry holding a single `ZOMBIE` whose `zombie_detected_at` is
`None`. -/
def sampleRegistryZombieNone : RegistryData :=
  { instances := [(7, sampleInstance InstanceState.zombie none)],
    lifecycle_events := [], global_dashboard_pid := none, global_dashboard_port := none }

/-- A registry with three lifecycle events and no instances. -/
def sampleRegistryWithEvents : RegistryData :=
  { instances := [],
    lifecycle_events :=
      [{ timestamp := 1, event_type := LifecycleEventType.instance_started, pid := 7,
         port := 24282, project_name := none, message := none },
       { timestamp := 2, event_type := LifecycleEventType.zombie_detected, pid := 7,
         port := 24282, project_name := none, message := none },
       { timestamp := 3, event_type := LifecycleEventType.zombie_pruned, pid := 7,
         port := 24282, project_name := none, message := none }],
    global_dashboard_pid := none, global_dashboard_port := none }

/-- A valid-JSON but non-object registry document (the file contains `[]`). -/
def corruptListDoc : Json := Json.arr []

/-- A valid-JSON object document whose `instances` map has a non-integer
key. -/
def corruptKeyDoc : Json :=
  Json.obj [("instances", Json.obj [("abc",
    Json.obj [("pid", Json.num 7), ("port", Json.num 24282),
              ("started_at", Json.num 10), ("last_heartbeat", Json.num 20)])])]

/-- A document whose instance entry is missing required dataclass fields:
`from_dict` fails with `TypeError`, which `_load` catches. -/
def healedDoc : Json :=
  Json.obj [("instances", Json.obj [("5", Json.obj [])])]

/-! ## Association-list lemmas -/

lemma dictGet_dictInsert_self {α : Type} (l : List (Int × α)) (k : Int) (v : α) :
    dictGet (dictInsert l k v) k = some v := by
  induction l with
  | nil => simp [dictInsert, dictGet]
  | cons hd tl ih =>
      by_cases h : hd.1 = k
      · simp [dictInsert, dictGet, h]
      · simpa [dictInsert, dictGet, h] using ih

lemma dictGet_dictInsert_ne {α : Type} (l : List (Int × α)) (k k' : Int) (v : α)
    (h : k ≠ k') : dictGet (dictInsert l k v) k' = dictGet l k' := by
  induction l with
  | nil => simp [dictInsert, dictGet, h]
  | cons hd tl ih =>
      by_cases hk : hd.1 = k
      · subst hk
        simp [dictInsert, dictGet, h]
      · simp only [dictInsert, if_neg hk, dictGet]
        by_cases hk' : hd.1 = k'
        · simp [hk']
        · simpa [hk'] using ih

lemma countKey_eq_zero_of_dictGet_none {α : Type} (l : List (Int × α)) (k : Int)
    (h : dictGet l k = none) : countKey l k = 0 := by
  induction l with
  | nil => simp [countKey]
  | cons hd tl ih =>
      by_cases hk : hd.1 = k
      · simp [dictGet, hk] at h
      · simp only [dictGet, if_neg hk] at h
        simpa [countKey, hk] using ih h

lemma countKey_dictInsert_of_none {α : Type} (l : List (Int × α)) (k : Int) (v : α)
    (h : dictGet l k = none) : countKey (dictInsert l k v) k = countKey l k + 1 := by
  induction l with
  | nil => simp [dictInsert, countKey]
  | cons hd tl ih =>
      by_cases hk : hd.1 = k
      · simp [dictGet, hk] at h
      · simp only [dictGet, if_neg hk] at h
        simp only [dictInsert, if_neg hk]
        simpa [countKey, hk] using ih h

lemma countKey_dictInsert_of_some {α : Type} (l : List (Int × α)) (k : Int) (v w : α)
    (h : dictGet l k = some w) : countKey (dictInsert l k v) k = countKey l k := by
  induction l with
  | nil => simp [dictGet] at h
  | cons hd tl ih =>
      by_cases hk : hd.1 = k
      · simp [dictInsert, hk, countKey]
      · simp only [dictGet, if_neg hk] at h
        simp only [dictInsert, if_neg hk]
        simpa [countKey, hk] using ih h

lemma dictGet_dictRemove_ne {α : Type} (l : List (Int × α)) (p q : Int)
    (h : p ≠ q) : dictGet (dictRemove l p) q = dictGet l q := by
  induction l with
  | nil => simp [dictRemove]
  | cons hd tl ih =>
      by_cases hp : hd.1 = p
      · have : ¬ hd.1 = q := by rw [hp]; exact h
        simp [dictRemove, dictGet, hp, this, h]
      · simp only [dictRemove, if_neg hp, dictGet]
        by_cases hq : hd.1 = q
        · simp [hq]
        · simpa [hq] using ih

lemma dictRemove_sublist {α : Type} (l : List (Int × α)) (p : Int) :
    (dictRemove l p).Sublist l := by
  induction l with
  | nil => simp [dictRemove]
  | cons hd tl ih =>
      by_cases hp : hd.1 = p
      · simp only [dictRemove, if_pos hp]
        exact List.sublist_cons_self hd tl
      · simpa [dictRemove, hp] using ih.cons₂ hd

lemma dictRemove_eq_self_of_not_mem {α : Type} (l : List (Int × α)) (p : Int)
    (h : p ∉ l.map Prod.fst) : dictRemove l p = l := by
  induction l with
  | nil => simp [dictRemove]
  | cons hd tl ih =>
      simp only [List.map_cons, List.mem_cons, not_or] at h
      have hp : ¬ hd.1 = p := fun hh => h.1 hh.symm
      simp [dictRemove, hp, ih h.2]

lemma dictRemove_eq_filter {α : Type} (l : List (Int × α)) (p : Int)
    (h : (l.map Prod.fst).Nodup) :
    dictRemove l p = l.filter (fun kv => decide (kv.1 ≠ p)) := by
  induction l with
  | nil => simp [dictRemove]
  | cons hd tl ih =>
      simp only [List.map_cons, List.nodup_cons] at h
      by_cases hp : hd.1 = p
      · have hnot : p ∉ tl.map Prod.fst := hp ▸ h.1
        have hall : tl.filter (fun kv => !decide (kv.1 = p)) = tl := by
          refine List.filter_eq_self.mpr ?_
          intro kv hkv
          have : kv.1 ≠ p := fun he => hnot (he ▸ List.mem_map_of_mem Prod.fst hkv)
          simpa using this
        simp [dictRemove, hp, hall]
      · simp [dictRemove, hp, ih h.2]

lemma mem_of_dictGet_eq_some {α : Type} (l : List (Int × α)) (k : Int) (v : α)
    (h : dictGet l k = some v) : (k, v) ∈ l := by
  induction l with
  | nil => simp [dictGet] at h
  | cons hd tl ih =>
      by_cases hk : hd.1 = k
      · simp only [dictGet, if_pos hk] at h
        obtain ⟨k1, v1⟩ := hd
        obtain rfl : k1 = k := hk
        obtain rfl : v1 = v := by simpa using h
        exact List.mem_cons_self _ _
      · simp only [dictGet, if_neg hk] at h
        exact List.mem_cons_of_mem _ (ih h)

lemma dictGet_eq_some_of_mem_nodup {α : Type} (l : List (Int × α)) (k : Int) (v : α)
    (hnd : (l.map Prod.fst).Nodup) (h : (k, v) ∈ l) : dictGet l k = some v := by
  induction l with
  | nil => simp at h
  | cons hd tl ih =>
      simp only [List.map_cons, List.nodup_cons] at hnd
      rcases List.mem_cons.mp h with heq | hmem
      · rw [← heq]
        simp [dictGet]
      · have hk : ¬ hd.1 = k := by
          intro he
          exact hnd.1 (he ▸ List.mem_map_of_mem Prod.fst hmem)
        simp only [dictGet, if_neg hk]
        exact ih hnd.2 hmem

lemma dictGet_isSome_of_mem {α : Type} (l : List (Int × α)) (k : Int) (v : α)
    (h : (k, v) ∈ l) : (dictGet l k).isSome := by
  induction l with
  | nil => simp at h
  | cons hd tl ih =>
      by_cases hk : hd.1 = k
      · simp [dictGet, hk]
      · simp only [dictGet, if_neg hk]
        rcases List.mem_cons.mp h with heq | hmem
        · exact absurd (congrArg Prod.fst heq).symm hk
        · exact ih hmem

lemma dictGet_filter_keys_notin {α : Type} (l : List (Int × α)) (ps : List Int)
    (p : Int) :
    dictGet (l.filter (fun kv => !decide (kv.1 ∈ ps))) p =
      if p ∈ ps then none else dictGet l p := by
  induction l with
  | nil => simp [dictGet]
  | cons hd tl ih =>
      by_cases hmem : hd.1 ∈ ps
      · rw [List.filter_cons_of_neg (by simpa using hmem), ih]
        by_cases hps : p ∈ ps
        · simp [hps]
        · have hp : ¬ hd.1 = p := fun he => hps (he ▸ hmem)
          simp [hps, dictGet, hp]
      · rw [List.filter_cons_of_pos (by simpa using hmem)]
        simp only [dictGet]
        by_cases hp : hd.1 = p
        · have hps : p ∉ ps := fun hin => hmem (hp ▸ hin)
          simp [hp, hps]
        · simp only [if_neg hp]
          rw [ih]

/-! ## C2: derived IDLE state -/

/-- C2. For every `Session` whose stored state is `CONNECTED` or `ACTIVE`
and whose `last_activity` lies more than 300 seconds before the current
time, the `state` property returns `IDLE` while leaving the session object
(in particular the stored state field) unchanged; for a stored
`DISCONNECTED` state the property returns `DISCONNECTED` regardless of
`last_activity`. -/
theorem c2_idle_is_derived_on_read (s : Session) (now : ℚ) :
    ((s.stateStored = SessionState.connected ∨ s.stateStored = SessionState.active) →
      now - s.last_activity > 300 →
      (Session.stateProp s now).1 = SessionState.idle ∧
      (Session.stateProp s now).2 = s) ∧
    (s.stateStored = SessionState.disconnected →
      (Session.stateProp s now).1 = SessionState.disconnected) := by
  constructor
  · intro hlive hold
    have : now - s.last_activity > Session.IDLE_TIMEOUT_SECONDS := hold
    simp [Session.stateProp, hlive, this]
  · intro hdisc
    simp [Session.stateProp, hdisc]

/-- Witness for C2: a session created at time 0, read at time 301, reports
`IDLE`; the same stored fields read as `DISCONNECTED` when so stored. -/
theorem c2_idle_is_derived_on_read_witness :
    (Session.stateProp sampleSession 301).1 = SessionState.idle ∧
    (Session.stateProp sampleSession 301).2 = sampleSession :=
  (c2_idle_is_derived_on_read sampleSession 301).1 (Or.inl rfl) (by norm_num [sampleSession])

/-! ## C7: last_activity is monotone under every public mutator -/

/-- C7. Assuming the wall clock does not run backwards (the time passed to
the mutator is at least the session's current `last_activity`), every
public mutator — `touch`, `set_active_project`, `set_active_modes`,
`increment_tool_calls`, `disconnect` — leaves `last_activity` greater than
or equal to its previous value. -/
theorem c7_last_activity_monotone (s : Session) (now : ℚ) (p : Option ProjectRef)
    (modes : List String) (tool_name : Option String)
    (h : s.last_activity ≤ now) :
    s.last_activity ≤ (Session.touch s now).last_activity ∧
    s.last_activity ≤ (Session.set_active_project s p now).last_activity ∧
    s.last_activity ≤ (Session.set_active_modes s modes now).last_activity ∧
    s.last_activity ≤ (Session.increment_tool_calls s tool_name now).last_activity ∧
    s.last_activity ≤ (Session.disconnect s now).last_activity := by
  refine ⟨h, h, h, ?_, h⟩
  cases tool_name with
  | none => exact h
  | some name =>
      by_cases hname : name = "" <;>
        simp [Session.increment_tool_calls, Session.touch, hname, h]

/-- Witness for C7: the sample session at time 5. -/
theorem c7_last_activity_monotone_witness :
    sampleSession.last_activity ≤
      (Session.increment_tool_calls sampleSession (some "find_symbol") 5).last_activity :=
  (c7_last_activity_monotone sampleSession 5 none [] (some "find_symbol")
    (by norm_num [sampleSession])).2.2.2.1

/-! ## C8: clearing the global dashboard record matches the stored pid -/

/-- C8. After `set_global_dashboard(a, x)`, a `clear_global_dashboard(b)`
with `b ≠ a` is a no-op: the stored dashboard pid and port are unchanged
and `get_global_dashboard_port` still returns `x`; a subsequent
`clear_global_dashboard(a)` clears both fields to `None`. -/
theorem c8_clear_global_dashboard_matches_pid (d : RegistryData) (a b x : Int)
    (hab : b ≠ a) :
    (InstanceRegistry.clear_global_dashboard
        (InstanceRegistry.set_global_dashboard d a x) b) =
      InstanceRegistry.set_global_dashboard d a x ∧
    InstanceRegistry.get_global_dashboard_port
        (InstanceRegistry.clear_global_dashboard
          (InstanceRegistry.set_global_dashboard d a x) b) = some x ∧
    (InstanceRegistry.clear_global_dashboard
        (InstanceRegistry.set_global_dashboard d a x) b).global_dashboard_pid = some a ∧
    (InstanceRegistry.clear_global_dashboard
        (InstanceRegistry.clear_global_dashboard
          (InstanceRegistry.set_global_dashboard d a x) b) a).global_dashboard_pid = none ∧
    (InstanceRegistry.clear_global_dashboard
        (InstanceRegistry.clear_global_dashboard
          (InstanceRegistry.set_global_dashboard d a x) b) a).global_dashboard_port = none := by
  have hne : ¬ (some a = some b) := by simpa using fun h => hab h.symm
  refine ⟨?_, ?_, ?_, ?_, ?_⟩ <;>
    simp [InstanceRegistry.clear_global_dashboard, InstanceRegistry.set_global_dashboard,
          InstanceRegistry.saveData, InstanceRegistry.get_global_dashboard_port, hne]

/-- Witness for C8: pids 1 and 2, port 24282. -/
theorem c8_clear_global_dashboard_matches_pid_witness :
    InstanceRegistry.get_global_dashboard_port
        (InstanceRegistry.clear_global_dashboard
          (InstanceRegistry.set_global_dashboard RegistryData.empty 1 24282) 2) = some 24282 :=
  (c8_clear_global_dashboard_matches_pid RegistryData.empty 1 2 24282 (by decide)).2.1

/-! ## C10: event-listing limit 0 returns everything -/

/-- C10. `get_lifecycle_events` with `limit = 0` returns the entire stored
event list (the Python slice `events[-0:]` is `events[0:]`), in both
`InstanceRegistry` and `CentralizedSerenaServer`; with `limit > 0` it
returns at most the newest `limit` events (a suffix of the stored list of
length at most `limit`). -/
theorem c10_limit_zero_returns_all (d : RegistryData) (srv : ServerState) (limit : Nat) :
    (InstanceRegistry.get_lifecycle_events d 0 = d.lifecycle_events ∧
     CentralizedSerenaServer.get_lifecycle_events srv 0 = srv.lifecycle_events) ∧
    (0 < limit →
      (InstanceRegistry.get_lifecycle_events d limit).length ≤ limit ∧
      (InstanceRegistry.get_lifecycle_events d limit).IsSuffix d.lifecycle_events ∧
      (CentralizedSerenaServer.get_lifecycle_events srv limit).length ≤ limit ∧
      (CentralizedSerenaServer.get_lifecycle_events srv limit).IsSuffix srv.lifecycle_events) := by
  constructor
  · constructor <;>
      simp [InstanceRegistry.get_lifecycle_events,
            CentralizedSerenaServer.get_lifecycle_events, pyLastSlice]
  · intro hpos
    have hlim : limit ≠ 0 := Nat.pos_iff_ne_zero.mp hpos
    refine ⟨?_, ?_, ?_, ?_⟩ <;>
      simp only [InstanceRegistry.get_lifecycle_events,
        CentralizedSerenaServer.get_lifecycle_events, pyLastSlice, if_neg hlim]
    · rw [List.length_drop]; omega
    · exact List.drop_suffix _ _
    · rw [List.length_drop]; omega
    · exact List.drop_suffix _ _

/-- Witness for C10: three stored events, limits 0 and 2. -/
theorem c10_limit_zero_returns_all_witness :
    InstanceRegistry.get_lifecycle_events sampleRegistryWithEvents 0 =
      sampleRegistryWithEvents.lifecycle_events ∧
    (InstanceRegistry.get_lifecycle_events sampleRegistryWithEvents 2).length ≤ 2 :=
  ⟨((c10_limit_zero_returns_all sampleRegistryWithEvents sampleServerWithEvents 0).1).1,
   ((c10_limit_zero_returns_all sampleRegistryWithEvents sampleServerWithEvents 2).2
      (by decide)).1⟩

/-! ## C1: tool dispatch rejects unknown and disconnected sessions -/

/-- C1. For every session id and tool name, `execute_tool` returns
`"Error: Unknown session {session_id}"` when no session with that id
exists, and `"Error: Session {session_id} is disconnected"` when the
session's derived state is `DISCONNECTED`; in both cases the server state
is unchanged and control never reaches the tool-dispatch block (the
returned flag is `false`). -/
theorem c1_execute_tool_rejects (srv : ServerState) (now : ℚ)
    (session_id tool_name : String) :
    (dictGet srv.sessions session_id = none →
      CentralizedSerenaServer.execute_tool srv now session_id tool_name =
        (srv, ("Error: Unknown session " ++ session_id, false))) ∧
    (∀ s, dictGet srv.sessions session_id = some s →
      Session.state s now = SessionState.disconnected →
      CentralizedSerenaServer.execute_tool srv now session_id tool_name =
        (srv, ("Error: Session " ++ session_id ++ " is disconnected", false))) := by
  constructor
  · intro h
    simp [CentralizedSerenaServer.execute_tool, h]
  · intro s hs hdisc
    simp [CentralizedSerenaServer.execute_tool, hs, hdisc]

/-- Witness for C1: an empty server rejects the unknown session id. -/
theorem c1_execute_tool_rejects_witness :
    CentralizedSerenaServer.execute_tool sampleServer 0 "deadbeef" "find_symbol" =
      (sampleServer, ("Error: Unknown session deadbeef", false)) :=
  (c1_execute_tool_rejects sampleServer 0 "deadbeef" "find_symbol").1 rfl

/-! ## C6: transport failures become in-band tool errors -/

/-- C6. For every `tools/call` request that carries an id and a tool name,
when the HTTP round-trip raises an `MCPProxyError` (connection error,
timeout, HTTP error or invalid JSON), the bridge responds with a
successful JSON-RPC result whose single text content is
`"Proxy error: " ++ str(e)` and whose `isError` field is `true`; it never
responds with a JSON-RPC error object for such a transport failure. -/
theorem c6_transport_failure_is_in_band (request_id : Json) (name : String)
    (outcome : Except MCPProxyError (List (String × Json))) (e : MCPProxyError)
    (hname : name ≠ "") (hout : outcome = Except.error e) :
    SerenaMCPProxy.handle_call_tool request_id (some name) outcome =
      JsonRpcResponse.result request_id
        (Json.str ("Proxy error: " ++ e.message)) (Json.bool true) ∧
    (∃ rest, "Proxy error: " ++ e.message = "Proxy error: " ++ rest) ∧
    (SerenaMCPProxy.handle_call_tool request_id (some name) outcome).isRpcError = false := by
  subst hout
  refine ⟨?_, ⟨e.message, rfl⟩, ?_⟩ <;>
    simp [SerenaMCPProxy.handle_call_tool, hname, JsonRpcResponse.isRpcError]

/-- Witness for C6: a timed-out tool call against an unreachable server. -/
theorem c6_transport_failure_is_in_band_witness :
    SerenaMCPProxy.handle_call_tool (Json.num 1) (some "find_symbol")
        (Except.error (MCPProxyError.invalidJsonResponse)) =
      JsonRpcResponse.result (Json.num 1)
        (Json.str ("Proxy error: " ++ MCPProxyError.invalidJsonResponse.message))
        (Json.bool true) :=
  (c6_transport_failure_is_in_band (Json.num 1) "find_symbol"
    (Except.error MCPProxyError.invalidJsonResponse) MCPProxyError.invalidJsonResponse
    (by decide) rfl).1

/-! ## C3: self-healing of a corrupt registry document (corrected) -/

/-- Counterexample to C3 as stated. A registry file holding the valid JSON
document `[]` fails to parse as a registry document, but `_load` does not
treat it as empty: `data.get("instances", {})` raises `AttributeError`,
which the `except (json.JSONDecodeError, KeyError, TypeError)` clause does
not catch, so the failure propagates to the caller of every registry
operation. Likewise a JSON object whose `instances` map carries the
non-integer key `"abc"` raises `ValueError` at `int(k)`, also uncaught. -/
theorem c3_counterexample_uncaught_parse_error :
    InstanceRegistry.loadData (RegistryFile.parsed corruptListDoc) =
      Except.error PyExc.attributeError ∧
    InstanceRegistry.loadData (RegistryFile.parsed corruptKeyDoc) =
      Except.error PyExc.valueError := ⟨rfl, rfl⟩

/-- C3 (amended). An absent registry file and a file that is not valid
JSON are treated as an empty registry, and so is any document whose parse
fails with one of the exception classes `_load` catches (`JSONDecodeError`,
`KeyError`, `TypeError`); a parse failure raising any other exception
(e.g. `ValueError` from a non-integer instance key, or `AttributeError`
from a non-object document) propagates to the caller instead of
self-healing. -/
theorem c3_load_self_heals_caught_errors (doc : Json) (e : PyExc)
    (hfail : RegistryData.from_dict doc = Except.error e) :
    (isCaughtLoadExc e = true →
      InstanceRegistry.loadData (RegistryFile.parsed doc) = Except.ok RawRegistry.empty) ∧
    (isCaughtLoadExc e = false →
      InstanceRegistry.loadData (RegistryFile.parsed doc) = Except.error e) ∧
    InstanceRegistry.loadData RegistryFile.absent = Except.ok RawRegistry.empty ∧
    InstanceRegistry.loadData RegistryFile.invalidJson = Except.ok RawRegistry.empty := by
  refine ⟨?_, ?_, rfl, rfl⟩ <;> intro hc <;>
    simp [InstanceRegistry.loadData, hfail, hc]

/-- Witness for C3 (amended): a document whose instance entry misses the
required dataclass fields parses with a (caught) `TypeError` and heals to
the empty registry. -/
theorem c3_load_self_heals_caught_errors_witness :
    InstanceRegistry.loadData (RegistryFile.parsed healedDoc) =
      Except.ok RawRegistry.empty :=
  (c3_load_self_heals_caught_errors healedDoc PyExc.typeError rfl).1 rfl

/-! ## Characterization of the prune loop -/

lemma pruneStep_foldl_spec (now timeout : ℚ) (ps : List Int) :
    ∀ (d0 : RegistryData) (acc : List Int),
      ps.Nodup →
      (d0.instances.map Prod.fst).Nodup →
      (∀ p ∈ ps, (dictGet d0.instances p).isSome) →
      (ps.foldl (InstanceRegistry.pruneStep now timeout) (d0, acc)).2 = acc ++ ps ∧
      (ps.foldl (InstanceRegistry.pruneStep now timeout) (d0, acc)).1.instances =
        d0.instances.filter (fun kv => !decide (kv.1 ∈ ps)) ∧
      (ps.foldl (InstanceRegistry.pruneStep now timeout) (d0, acc)).1.lifecycle_events =
        d0.lifecycle_events ++ ps.map (prunedEventFor d0 now timeout) ∧
      (ps.foldl (InstanceRegistry.pruneStep now timeout) (d0, acc)).1.global_dashboard_pid =
        d0.global_dashboard_pid ∧
      (ps.foldl (InstanceRegistry.pruneStep now timeout) (d0, acc)).1.global_dashboard_port =
        d0.global_dashboard_port := by
  induction ps with
  | nil =>
      intro d0 acc _ _ _
      simp
  | cons p ps ih =>
      intro d0 acc hnd hkeys hsome
      obtain ⟨hpne, hndtail⟩ := List.nodup_cons.mp hnd
      obtain ⟨inst, hinst⟩ :=
        Option.isSome_iff_exists.mp (hsome p (List.mem_cons_self p ps))
      set d1 : RegistryData :=
        { instances := dictRemove d0.instances p,
          lifecycle_events := d0.lifecycle_events ++ [prunedEventFor d0 now timeout p],
          global_dashboard_pid := d0.global_dashboard_pid,
          global_dashboard_port := d0.global_dashboard_port } with hd1
      have hstep : InstanceRegistry.pruneStep now timeout (d0, acc) p = (d1, acc ++ [p]) := by
        rw [hd1]
        simp [InstanceRegistry.pruneStep, hinst, InstanceRegistry.add_event,
              prunedEventFor]
      have hfold : (p :: ps).foldl (InstanceRegistry.pruneStep now timeout) (d0, acc) =
          ps.foldl (InstanceRegistry.pruneStep now timeout) (d1, acc ++ [p]) := by
        rw [List.foldl_cons, hstep]
      have hkeys1 : (d1.instances.map Prod.fst).Nodup := by
        rw [hd1]
        exact List.Nodup.sublist
          (List.Sublist.map Prod.fst (dictRemove_sublist d0.instances p)) hkeys
      have hsome1 : ∀ q ∈ ps, (dictGet d1.instances q).isSome := by
        intro q hq
        have hne : p ≠ q := fun he => hpne (he ▸ hq)
        rw [hd1]
        show (dictGet (dictRemove d0.instances p) q).isSome
        rw [dictGet_dictRemove_ne _ _ _ hne]
        exact hsome q (List.mem_cons_of_mem p hq)
      obtain ⟨hsnd, hinsts, hevents, hgdp, hgdq⟩ := ih d1 (acc ++ [p]) hndtail hkeys1 hsome1
      rw [hfold]
      refine ⟨?_, ?_, ?_, ?_, ?_⟩
      · rw [hsnd]
        simp
      · rw [hinsts]
        have hd1i : d1.instances = dictRemove d0.instances p := by rw [hd1]
        rw [hd1i, dictRemove_eq_filter _ _ hkeys, List.filter_filter]
        apply List.filter_congr
        intro kv _
        by_cases h1 : kv.1 = p <;> by_cases h2 : kv.1 ∈ ps <;> simp [h1, h2]
      · rw [hevents]
        have hmapeq : ps.map (prunedEventFor d1 now timeout) =
            ps.map (prunedEventFor d0 now timeout) := by
          apply List.map_congr_left
          intro q hq
          have hne : p ≠ q := fun he => hpne (he ▸ hq)
          have hd1i : d1.instances = dictRemove d0.instances p := by rw [hd1]
          unfold prunedEventFor
          rw [hd1i, dictGet_dictRemove_ne _ _ _ hne]
        have hd1e : d1.lifecycle_events =
            d0.lifecycle_events ++ [prunedEventFor d0 now timeout p] := by rw [hd1]
        rw [hmapeq, hd1e]
        simp
      · rw [hgdp]
      · rw [hgdq]

lemma trimEvents_eq_self (l : List LifecycleEvent)
    (h : l.length ≤ InstanceRegistry.MAX_LIFECYCLE_EVENTS) :
    InstanceRegistry.trimEvents l = l := by
  unfold InstanceRegistry.trimEvents
  rw [if_neg (by omega)]

lemma mem_pruneTargets_iff (d : RegistryData) (now timeout : ℚ) (p : Int)
    (hnd : (d.instances.map Prod.fst).Nodup) :
    p ∈ (d.instances.filter (InstanceRegistry.pruneExpired now timeout)).map
        (fun kv => kv.1) ↔
      ∃ inst, dictGet d.instances p = some inst ∧
        InstanceRegistry.pruneExpired now timeout (p, inst) = true := by
  constructor
  · intro h
    obtain ⟨kv, hkv, hfst⟩ := List.mem_map.mp h
    obtain ⟨hkvmem, hkvpred⟩ := List.mem_filter.mp hkv
    refine ⟨kv.2, ?_, ?_⟩
    · have hmem : (p, kv.2) ∈ d.instances := by
        rw [← hfst]
        simpa using hkvmem
      exact dictGet_eq_some_of_mem_nodup _ _ _ hnd hmem
    · rw [← hfst]
      simpa using hkvpred
  · rintro ⟨inst, hget, hpred⟩
    exact List.mem_map.mpr ⟨(p, inst),
      List.mem_filter.mpr ⟨mem_of_dictGet_eq_some _ _ _ hget, hpred⟩, rfl⟩

lemma pruneTargets_nodup (d : RegistryData) (now timeout : ℚ)
    (hnd : (d.instances.map Prod.fst).Nodup) :
    ((d.instances.filter (InstanceRegistry.pruneExpired now timeout)).map
      (fun kv => kv.1)).Nodup :=
  List.Nodup.sublist
    (List.Sublist.map _ (List.filter_sublist d.instances)) hnd

/-- The combined behaviour of `prune_zombies` on a well-formed document
(unique pids): the returned pid list is exactly the expired-zombie
collection, the surviving instances are those not pruned, nothing happens
on an empty prune, a non-empty prune appends one `ZOMBIE_PRUNED` event per
pruned pid before the save-time truncation, and the dashboard record is
untouched. -/
lemma prune_zombies_spec (d : RegistryData) (now timeout : ℚ)
    (hnd : (d.instances.map Prod.fst).Nodup) :
    (InstanceRegistry.prune_zombies d now timeout).2 =
      (d.instances.filter (InstanceRegistry.pruneExpired now timeout)).map
        (fun kv => kv.1) ∧
    (InstanceRegistry.prune_zombies d now timeout).1.instances =
      d.instances.filter
        (fun kv => !decide (kv.1 ∈ (InstanceRegistry.prune_zombies d now timeout).2)) ∧
    ((InstanceRegistry.prune_zombies d now timeout).2 = [] →
      (InstanceRegistry.prune_zombies d now timeout).1 = d) ∧
    ((InstanceRegistry.prune_zombies d now timeout).2 ≠ [] →
      (InstanceRegistry.prune_zombies d now timeout).1.lifecycle_events =
        InstanceRegistry.trimEvents (d.lifecycle_events ++
          (InstanceRegistry.prune_zombies d now timeout).2.map
            (prunedEventFor d now timeout))) ∧
    (InstanceRegistry.prune_zombies d now timeout).1.global_dashboard_pid =
      d.global_dashboard_pid ∧
    (InstanceRegistry.prune_zombies d now timeout).1.global_dashboard_port =
      d.global_dashboard_port := by
  have hndt := pruneTargets_nodup d now timeout hnd
  have hsome : ∀ p ∈ (d.instances.filter (InstanceRegistry.pruneExpired now timeout)).map
      (fun kv => kv.1), (dictGet d.instances p).isSome := by
    intro p hp
    obtain ⟨inst, hget, _⟩ := (mem_pruneTargets_iff d now timeout p hnd).mp hp
    rw [hget]
    rfl
  obtain ⟨hsnd, hinsts, hevents, hgdp, hgdq⟩ :=
    pruneStep_foldl_spec now timeout
      ((d.instances.filter (InstanceRegistry.pruneExpired now timeout)).map (fun kv => kv.1))
      d [] hndt hnd hsome
  simp only [List.nil_append] at hsnd
  unfold InstanceRegistry.prune_zombies
  by_cases hempty :
      (((d.instances.filter (InstanceRegistry.pruneExpired now timeout)).map
        (fun kv => kv.1)).foldl (InstanceRegistry.pruneStep now timeout) (d, [])).2 = []
  · rw [if_pos hempty]
    have htargets : (d.instances.filter (InstanceRegistry.pruneExpired now timeout)).map
        (fun kv => kv.1) = [] := by rw [← hsnd]; exact hempty
    rw [htargets] at hsnd ⊢
    simp
  · rw [if_neg hempty]
    refine ⟨hsnd, ?_, fun he => absurd he hempty, fun _ => ?_, hgdp, hgdq⟩
    · show (InstanceRegistry.saveData _).instances = _
      rw [InstanceRegistry.saveData]
      rw [hinsts, hsnd]
    · show (InstanceRegistry.saveData _).lifecycle_events = _
      rw [InstanceRegistry.saveData]
      simp only
      rw [hevents, hsnd]

/-! ## C5: registering the same pid twice -/

/-- C5. Starting from a registry without an entry for `pid`, calling
`register(pid, …)` at time `now1` and again at time `now2` leaves exactly
one registry entry for `pid`, whose `started_at` is preserved from the
first call (`now1`) and whose `last_heartbeat` is advanced to the time of
the second call (`now2`). -/
theorem c5_register_twice_single_entry (d : RegistryData) (now1 now2 : ℚ)
    (pid port1 port2 : Int) (ctx1 ctx2 : Option String)
    (modes1 modes2 : Option (List String))
    (habs : dictGet d.instances pid = none) :
    countKey (InstanceRegistry.register
        (InstanceRegistry.register d now1 pid port1 ctx1 modes1).1
        now2 pid port2 ctx2 modes2).1.instances pid = 1 ∧
    ∃ info, dictGet (InstanceRegistry.register
        (InstanceRegistry.register d now1 pid port1 ctx1 modes1).1
        now2 pid port2 ctx2 modes2).1.instances pid = some info ∧
      info.started_at = now1 ∧ info.last_heartbeat = now2 := by
  set d1 := (InstanceRegistry.register d now1 pid port1 ctx1 modes1).1 with hd1
  have h1 : d1.instances =
      dictInsert d.instances pid
        { pid := pid, port := port1, started_at := now1, last_heartbeat := now1,
          context := ctx1, modes := modes1.getD [], project_name := none,
          project_root := none, state := InstanceState.live_no_project,
          zombie_detected_at := none } := by
    rw [hd1]
    simp [InstanceRegistry.register, habs, InstanceRegistry.add_event,
          InstanceRegistry.saveData]
  have h2 : dictGet d1.instances pid = some
        { pid := pid, port := port1, started_at := now1, last_heartbeat := now1,
          context := ctx1, modes := modes1.getD [], project_name := none,
          project_root := none, state := InstanceState.live_no_project,
          zombie_detected_at := none } := by
    rw [h1]; exact dictGet_dictInsert_self _ _ _
  have h3 : (InstanceRegistry.register d1 now2 pid port2 ctx2 modes2).1.instances =
      dictInsert d1.instances pid
        { pid := pid, port := port2, started_at := now1, last_heartbeat := now2,
          context := ctx2, modes := modes2.getD [], project_name := none,
          project_root := none, state := InstanceState.live_no_project,
          zombie_detected_at := none } := by
    simp [InstanceRegistry.register, h2, InstanceRegistry.add_event,
          InstanceRegistry.saveData]
  constructor
  · rw [h3, countKey_dictInsert_of_some _ _ _ _ h2, h1,
        countKey_dictInsert_of_none _ _ _ habs,
        countKey_eq_zero_of_dictGet_none _ _ habs]
  · have h4 : dictGet
        (InstanceRegistry.register d1 now2 pid port2 ctx2 modes2).1.instances pid = some
          { pid := pid, port := port2, started_at := now1, last_heartbeat := now2,
            context := ctx2, modes := modes2.getD [], project_name := none,
            project_root := none, state := InstanceState.live_no_project,
            zombie_detected_at := none } := by
      rw [h3]; exact dictGet_dictInsert_self _ _ _
    exact ⟨_, h4, rfl, rfl⟩

/-- Witness for C5: registering pid 7 at times 10 and 42 in an empty
registry. -/
theorem c5_register_twice_single_entry_witness :
    countKey (InstanceRegistry.register
        (InstanceRegistry.register RegistryData.empty 10 7 24282 none none).1
        42 7 24282 none none).1.instances 7 = 1 :=
  (c5_register_twice_single_entry RegistryData.empty 10 42 7 24282 24282
    none none none none rfl).1

/-! ## C4: zombie pruning (corrected) -/

/-- Counterexample to C4 as stated. A `ZOMBIE` whose `zombie_detected_at`
is the timestamp `0` — which lies more than the 300 s timeout in the past
at `now = 400` — is *not* removed by `prune_zombies`, because the loop
guard `if inst.zombie_detected_at and …` treats the float `0.0` as falsy
and skips the entry. The claim's "removes exactly those instances in
state `ZOMBIE` whose `zombie_detected_at` is more than `timeout` seconds
in the past" therefore fails at this registry state. -/
theorem c4_counterexample_zero_timestamp :
    dictGet sampleRegistryZombieZero.instances 7 =
      some (sampleInstance InstanceState.zombie (some 0)) ∧
    (sampleInstance InstanceState.zombie (some 0)).state = InstanceState.zombie ∧
    (sampleInstance InstanceState.zombie (some 0)).zombie_detected_at = some 0 ∧
    (400 : ℚ) - 0 > 300 ∧
    (InstanceRegistry.prune_zombies sampleRegistryZombieZero 400 300).2 = [] ∧
    dictGet (InstanceRegistry.prune_zombies sampleRegistryZombieZero 400 300).1.instances
      7 = some (sampleInstance InstanceState.zombie (some 0)) := by
  refine ⟨rfl, rfl, rfl, by norm_num, ?_, ?_⟩ <;> rfl

/-- C4 (amended). On a well-formed document (unique pids) with room in the
event ring, `prune_zombies(timeout)` removes exactly those instances in
state `ZOMBIE` whose `zombie_detected_at` is set to a truthy (nonzero)
timestamp lying strictly more than `timeout` seconds in the past, returns
exactly the removed pids, appends one `ZOMBIE_PRUNED` event per removed
instance, and leaves every other instance — in particular every `ZOMBIE`
whose `zombie_detected_at` is within `timeout` seconds of now, and every
non-`ZOMBIE` — unchanged. -/
theorem c4_prune_zombies_exact (d : RegistryData) (now timeout : ℚ)
    (hnd : (d.instances.map Prod.fst).Nodup)
    (hcap : d.lifecycle_events.length + d.instances.length ≤
      InstanceRegistry.MAX_LIFECYCLE_EVENTS) :
    (∀ p : Int, p ∈ (InstanceRegistry.prune_zombies d now timeout).2 ↔
      ∃ inst, dictGet d.instances p = some inst ∧
        inst.state = InstanceState.zombie ∧
        optTruthy inst.zombie_detected_at = true ∧
        now - inst.zombie_detected_at.getD 0 > timeout) ∧
    (∀ p ∈ (InstanceRegistry.prune_zombies d now timeout).2,
      dictGet (InstanceRegistry.prune_zombies d now timeout).1.instances p = none) ∧
    (∀ p : Int, p ∉ (InstanceRegistry.prune_zombies d now timeout).2 →
      dictGet (InstanceRegistry.prune_zombies d now timeout).1.instances p =
        dictGet d.instances p) ∧
    (InstanceRegistry.prune_zombies d now timeout).1.lifecycle_events =
      d.lifecycle_events ++ (InstanceRegistry.prune_zombies d now timeout).2.map
        (prunedEventFor d now timeout) := by
  obtain ⟨hsnd, hinsts, hnil, hcons, _, _⟩ := prune_zombies_spec d now timeout hnd
  have hmem : ∀ p : Int, p ∈ (InstanceRegistry.prune_zombies d now timeout).2 ↔
      ∃ inst, dictGet d.instances p = some inst ∧
        inst.state = InstanceState.zombie ∧
        optTruthy inst.zombie_detected_at = true ∧
        now - inst.zombie_detected_at.getD 0 > timeout := by
    intro p
    rw [hsnd, mem_pruneTargets_iff d now timeout p hnd]
    constructor
    · rintro ⟨inst, hget, hpred⟩
      refine ⟨inst, hget, ?_⟩
      simpa [InstanceRegistry.pruneExpired] using hpred
    · rintro ⟨inst, hget, hprops⟩
      refine ⟨inst, hget, ?_⟩
      simpa [InstanceRegistry.pruneExpired] using hprops
  refine ⟨hmem, ?_, ?_, ?_⟩
  · intro p hp
    rw [hinsts, dictGet_filter_keys_notin, if_pos hp]
  · intro p hp
    rw [hinsts, dictGet_filter_keys_notin, if_neg hp]
  · by_cases hempty : (InstanceRegistry.prune_zombies d now timeout).2 = []
    · rw [hnil hempty, hempty]
      simp
    · rw [hcons hempty]
      apply trimEvents_eq_self
      rw [List.length_append, List.length_map, hsnd, List.length_map]
      have := List.length_filter_le (InstanceRegistry.pruneExpired now timeout) d.instances
      omega

/-- Witness for C4 (amended): at `now = 400` with timeout 300 s, the
zombie detected at time 50 (350 s ago) is pruned. -/
theorem c4_prune_zombies_exact_witness :
    7 ∈ (InstanceRegistry.prune_zombies sampleRegistryZombie 400 300).2 :=
  ((c4_prune_zombies_exact sampleRegistryZombie 400 300 (by decide) (by decide)).1 7).mpr
    ⟨sampleInstance InstanceState.zombie (some 50), rfl, rfl, rfl,
      by norm_num [sampleInstance]⟩

/-! ## C9: zombies without a detection timestamp are never pruned -/

/-- C9. For every timeout, `prune_zombies` never removes an instance in
state `ZOMBIE` whose `zombie_detected_at` is `None` or `0` (both falsy in
the loop guard): such an instance is skipped and remains in the registry
with its entry unchanged. -/
theorem c9_prune_skips_falsy_detected_at (d : RegistryData) (now timeout : ℚ)
    (pid : Int) (inst : InstanceInfo)
    (hnd : (d.instances.map Prod.fst).Nodup)
    (hget : dictGet d.instances pid = some inst)
    (hz : inst.state = InstanceState.zombie)
    (hzda : inst.zombie_detected_at = none ∨ inst.zombie_detected_at = some 0) :
    pid ∉ (InstanceRegistry.prune_zombies d now timeout).2 ∧
    dictGet (InstanceRegistry.prune_zombies d now timeout).1.instances pid =
      some inst := by
  obtain ⟨hsnd, hinsts, _, _, _, _⟩ := prune_zombies_spec d now timeout hnd
  have hfalsy : optTruthy inst.zombie_detected_at = false := by
    rcases hzda with h | h <;> simp [optTruthy, h]
  have hnotmem : pid ∉ (InstanceRegistry.prune_zombies d now timeout).2 := by
    rw [hsnd]
    intro hmem
    obtain ⟨inst2, hget2, hpred⟩ := (mem_pruneTargets_iff d now timeout pid hnd).mp hmem
    obtain rfl : inst2 = inst := by
      have := hget2.symm.trans hget
      simpa using this
    simp only [InstanceRegistry.pruneExpired, decide_eq_true_eq] at hpred
    rw [hfalsy] at hpred
    exact Bool.false_ne_true hpred.2.1
  refine ⟨hnotmem, ?_⟩
  rw [hinsts, dictGet_filter_keys_notin, if_neg hnotmem, hget]

/-- Witness for C9: a zombie with `zombie_detected_at = None` survives a
prune with timeout 0 at `now = 10000`. -/
theorem c9_prune_skips_falsy_detected_at_witness :
    7 ∉ (InstanceRegistry.prune_zombies sampleRegistryZombieNone 10000 0).2 ∧
    dictGet (InstanceRegistry.prune_zombies
      sampleRegistryZombieNone 10000 0).1.instances 7 =
      some (sampleInstance InstanceState.zombie none) :=
  c9_prune_skips_falsy_detected_at sampleRegistryZombieNone 10000 0 7
    (sampleInstance InstanceState.zombie none) (by decide) rfl rfl (Or.inl rfl)

end Serena
